import Mathlib

/-
  Verification development for the FWGS checkout orchestration engine.

  The definitions below are a shallow embedding of the orchestration script
  (class `FWGSCheckout`): browser interactions are modelled by environment
  records whose boolean fields record whether each awaited browser operation
  succeeds, and by element-attribute tables for the payment iframe and the
  error-poller page scans.  Control flow (try/catch/finally, loops, early
  returns) is translated faithfully from the source.
-/

set_option autoImplicit false

namespace FWGS

/-- Substring search on character lists, modelling JavaScript
`String.includes`: `subSearch needle hay` is `true` iff `needle` occurs
contiguously in `hay`. -/
def subSearch (needle : List Char) : List Char → Bool
  | [] => needle.isEmpty
  | c :: rest => needle.isPrefixOf (c :: rest) || subSearch needle rest

/-- `strIncludes hay needle` models `hay.includes(needle)` in JavaScript. -/
def strIncludes (hay needle : String) : Bool :=
  subSearch needle.toList hay.toList

/-- ASCII whitespace, the relevant fragment of the character class trimmed by
JavaScript `String.prototype.trim`. -/
def isSpaceChar (c : Char) : Bool :=
  c == ' ' || c == '\t' || c == '\n' || c == '\r'

/-- Drop whitespace from both ends of a character list. -/
def trimChars (cs : List Char) : List Char :=
  ((cs.dropWhile isSpaceChar).reverse.dropWhile isSpaceChar).reverse

/-- Models JavaScript `text.trim()`. -/
def jsTrim (s : String) : String :=
  ⟨trimChars s.toList⟩

/-- Lowercase one ASCII character. -/
def lowerChar (c : Char) : Char :=
  if 'A' ≤ c && c ≤ 'Z' then Char.ofNat (c.toNat + 32) else c

/-- Models JavaScript `text.toLowerCase()` on ASCII text. -/
def jsToLower (s : String) : String :=
  ⟨s.toList.map lowerChar⟩

/-- The keyword test of `monitorPaymentErrors`: the lowercased text contains
one of `"invalid"`, `"declined"`, `"error"`, `"failed"`. -/
def keywordMatch (t : String) : Bool :=
  strIncludes (jsToLower t) "invalid" || strIncludes (jsToLower t) "declined" ||
    strIncludes (jsToLower t) "error" || strIncludes (jsToLower t) "failed"

/-- An element considered by the error poller: its visibility and its text
content (`textContent`). -/
structure ErrEl where
  visible : Bool
  text : String
deriving DecidableEq

/-- The fixed selector set scanned by `monitorPaymentErrors`. -/
def errorSelectors : List String :=
  [".payment-error", ".card-error", ".error-message", "[role=\"alert\"]"]

/-- The test applied to one element inside the poller's scan loop:
visible, non-empty trimmed text, and a keyword match on the lowercased
text. -/
def goodEl (e : ErrEl) : Bool :=
  e.visible && jsTrim e.text != "" && keywordMatch e.text

/-- The inner loop of one scan: walk the elements matching one selector and
return the trimmed text of the first one passing `goodEl`. -/
def scanList : List ErrEl → Option String
  | [] => none
  | e :: es => if goodEl e then some (jsTrim e.text) else scanList es

/-- The outer loop of one scan: walk the selectors in declared order, scanning
each selector's element list; the first match wins. -/
def scanSelList (page : String → List ErrEl) : List String → Option String
  | [] => none
  | sel :: rest =>
    match scanList (page sel) with
    | some m => some m
    | none => scanSelList page rest

/-- One complete scan of the page at one check of `monitorPaymentErrors`
(the body of `checkForErrors` from the `try` down to the selector loop's
end). `page` maps a selector to the elements currently matching it. -/
def scanSelectors (page : String → List ErrEl) : Option String :=
  scanSelList page errorSelectors

/-- The value `monitorPaymentErrors` resolves with:
`{ errorFound, errorMessage, timing: checkCount * 200 }`. -/
structure PollResult where
  errorFound : Bool
  errorMessage : String
  timing : Nat
deriving DecidableEq

/-- The recursive `checkForErrors` loop. `scan c` is the outcome of the scan
performed at check number `c` (`none` when no matching element is found, which
also covers a scan aborted by an exception — the `catch` arm just reschedules).
`checkCount` is the number of checks already performed, `fuel` the number of
checks remaining before the `checkCount >= maxChecks` guard resolves the
promise unconfirmed. -/
def checkLoop (scan : Nat → Option String) : Nat → Nat → PollResult
  | checkCount, 0 => ⟨false, "", checkCount * 200⟩
  | checkCount, fuel + 1 =>
    match scan (checkCount + 1) with
    | some m => ⟨true, m, (checkCount + 1) * 200⟩
    | none => checkLoop scan (checkCount + 1) fuel

/-- The maximum check count of `monitorPaymentErrors`. -/
def maxChecks : Nat := 50

/-- `monitorPaymentErrors(page)`: poll the page's error selectors, at most
`maxChecks` checks 200 ms apart. `pages c` is the page content (selector to
element list) observed at check number `c` (checks are numbered from 1). -/
def monitorPaymentErrors (pages : Nat → String → List ErrEl) : PollResult :=
  checkLoop (fun c => scanSelectors (pages c)) 0 maxChecks

/-- One input element of the payment iframe as observed by the CVV loop:
visibility, enabled state, declared `type` attribute, and whether any of the
awaited operations on it throws (the loop's `catch` arm skips such an
input). -/
structure InputInfo where
  visible : Bool
  enabled : Bool
  type : String
  faulty : Bool
deriving DecidableEq

/-- The CVV selection loop of `handlePayment`: walk the iframe's inputs with
their ordinal index; skip an input whose inspection throws; pick the first
input with `visible && enabled && type !== 'hidden' && i > 0`. -/
def selectCvvGo : List InputInfo → Nat → Option Nat
  | [], _ => none
  | inp :: rest, i =>
    if !inp.faulty && inp.visible && inp.enabled && inp.type != "hidden" && decide (0 < i) then
      some i
    else
      selectCvvGo rest (i + 1)

/-- Index of the input the primary CVV loop fills, if any. -/
def selectCvvIndex (inputs : List InputInfo) : Option Nat :=
  selectCvvGo inputs 0

/-- The fallback CVV selectors, in declared order. -/
def cvvFallbackSelectors : List String :=
  ["input[placeholder*=\"CVV\"]", "input[placeholder*=\"CVC\"]",
   "input[placeholder*=\"Security\"]", "input[maxlength=\"3\"]",
   "input[maxlength=\"4\"]"]

/-- The fallback selector loop: `usable` records, per fallback selector, that
its first match is visible and the click/fill on it completes; the first
usable selector wins. -/
def firstUsable : List Bool → Option Nat
  | [] => none
  | b :: rest =>
    if b then some 0 else (firstUsable rest).map (fun n => n + 1)

/-- Environment of one `handlePayment` call: the outcome of each awaited
browser operation, the iframe's input table, the fallback-selector outcomes
and the page contents seen by the error poller. -/
structure PaymentEnv where
  cardholderFillOk : Bool
  iframeAttached : Bool
  frameAccessible : Bool
  cardFieldVisible : Bool
  cardFillOk : Bool
  inputs : List InputInfo
  fallbackUsable : List Bool
  expiryOk : Bool
  buttonVisible : Bool
  buttonEnabled : Bool
  orderClickOk : Bool
  pages : Nat → String → List ErrEl

/-- Observable actions of one `handlePayment` call. -/
structure PaymentEffects where
  cardEntered : Bool
  cvvHandlingReached : Bool
  cvvPrimary : Option Nat
  cvvFallback : Option Nat
  cvvEntered : Bool
  orderClicked : Bool
  pollerStarted : Bool
deriving DecidableEq

/-- Effects of a call that threw before reaching the CVV loop. -/
def noEffects : PaymentEffects :=
  ⟨false, false, none, none, false, false, false⟩

/-- The value `handlePayment` returns on its normal paths:
`{ success: true }` or `{ success: false, error: message }`. -/
structure PaymentResult where
  success : Bool
  error : Option String
deriving DecidableEq

/-- `handlePayment(page)`: fill cardholder name, access the payment iframe,
enter the card number if its field is visible, run the CVV selection loop and
its fallback, fill the expiry date, then — only if the place-order button is
visible and enabled — click it racing `monitorPaymentErrors`.  Returns the
observable effects together with the thrown error or the returned value. -/
def handlePayment (env : PaymentEnv) : PaymentEffects × Except String PaymentResult :=
  if !env.cardholderFillOk then
    (noEffects, .error "Timeout filling cardholder name")
  else if !env.iframeAttached then
    (noEffects, .error "Timeout waiting for payment iframe")
  else if !env.frameAccessible then
    (noEffects, .error "Could not access iframe content")
  else if env.cardFieldVisible && !env.cardFillOk then
    (noEffects, .error "Card number entry failed")
  else
    let cardEntered := env.cardFieldVisible
    let primary := selectCvvIndex env.inputs
    let fallback := if primary.isNone then firstUsable env.fallbackUsable else none
    let cvvEntered := primary.isSome || fallback.isSome
    let baseEff : PaymentEffects :=
      ⟨cardEntered, true, primary, fallback, cvvEntered, false, false⟩
    if !env.expiryOk then
      (baseEff, .error "Expiry date entry failed")
    else if !env.buttonVisible then
      (baseEff, .error "Timeout waiting for place order button")
    else if env.buttonEnabled then
      if !env.orderClickOk then
        ({ baseEff with pollerStarted := true }, .error "Place order click failed")
      else
        let r := monitorPaymentErrors env.pages
        let eff := { baseEff with orderClicked := true, pollerStarted := true }
        if r.errorFound then
          (eff, .ok ⟨false, some r.errorMessage⟩)
        else
          (eff, .ok ⟨true, none⟩)
    else
      (baseEff, .ok ⟨true, none⟩)

/-- Outcomes of the strategy loop of `navigateToCheckout`: number of
strategies attempted, and whether one of them succeeded.  A strategy is
attempted only if every earlier strategy raised; the loop `break`s on the
first success. -/
def tryStrats : List Bool → Nat × Bool
  | [] => (0, false)
  | s :: rest =>
    if s then (1, true)
    else
      let (n, r) := tryStrats rest
      (n + 1, r)

/-- `navigateToCheckout(page)`: click the cart button, then try the checkout
strategies in declared order; if none succeeds, throw
`"Could not find checkout button"`.  Returns the number of strategies
attempted together with the outcome. -/
def navigateToCheckout (cartClickOk : Bool) (strats : List Bool) :
    Nat × Except String Unit :=
  if !cartClickOk then
    (0, .error "Timeout clicking cart button")
  else
    let (n, clicked) := tryStrats strats
    if clicked then (n, .ok ()) else (n, .error "Could not find checkout button")

/-- Environment of one `fillShippingInfo` call. -/
structure ShippingEnv where
  formVisible : Bool
  fillsOk : Bool
  continueVisible : Bool
  dialogAppears : Bool
  useAddressOk : Bool
  paymentPageAppears : Bool
deriving DecidableEq

/-- The `try` body of the address-validation segment: wait for the validation
modal, then click "Use this Address"; either wait can time out and throw. -/
def addressValidationTry (dialogAppears useAddressOk : Bool) : Except String Bool :=
  if !dialogAppears then .error "Timeout waiting for validation modal"
  else if !useAddressOk then .error "Use this Address click failed"
  else .ok true

/-- The `catch` arm wrapped around the address-validation segment: any thrown
error is swallowed (logged as "No address validation needed") and the stage
continues with the fallback value. -/
def catchAll {α : Type} (fallback : α) : Except String α → α
  | .ok a => a
  | .error _ => fallback

/-- `fillShippingInfo(page)`: fill the shipping address form, continue to
payment, handle the optional address-validation modal inside a `try`/`catch`,
then wait for the payment page.  Returns whether the validation modal was
handled, together with the outcome. -/
def fillShippingInfo (env : ShippingEnv) : Bool × Except String Unit :=
  if !env.formVisible then
    (false, .error "Timeout waiting for shipping form")
  else if !env.fillsOk then
    (false, .error "Shipping field fill failed")
  else if !env.continueVisible then
    (false, .error "Timeout waiting for Continue to Payment")
  else
    let validationHandled :=
      catchAll false (addressValidationTry env.dialogAppears env.useAddressOk)
    if !env.paymentPageAppears then
      (validationHandled, .error "Timeout waiting for payment page")
    else
      (validationHandled, .ok ())

/-- Environment of one full `executeCheckout` run: one field per awaited
browser operation — including `createBrowser`'s `chromium.launch` and
`browser.newPage`, the catch-arm `page.screenshot`, the awaited
`onComplete`/`onError` callbacks and the `finally`-arm `browser.close`, each
of which can reject — plus the strategy outcomes of `navigateToCheckout` and
the sub-environments of the shipping and payment stages. -/
structure RunEnv where
  launchOk : Bool
  newPageOk : Bool
  gotoOk : Bool
  ageOk : Bool
  availOk : Bool
  shipSelectOk : Bool
  addToCartOk : Bool
  cartClickOk : Bool
  cartStrategies : List Bool
  contactOk : Bool
  shipping : ShippingEnv
  payment : PaymentEnv
  screenshotOk : Bool
  onCompleteOk : Bool
  onErrorOk : Bool
  closeOk : Bool

/-- The stage pipeline of the `try` block of `executeCheckout`, up to and
excluding `handlePayment`: navigation, age verification, availability and
ship selection, add to cart, `navigateToCheckout`, `fillContactInfo`,
`fillShippingInfo`.  The first stage that throws aborts the pipeline with its
error. -/
def prePaymentStages (env : RunEnv) : Except String Unit :=
  if !env.gotoOk then .error "Navigation to product page failed"
  else if !env.ageOk then .error "Age verification click failed"
  else if !env.availOk then .error "Availability dialog did not appear"
  else if !env.shipSelectOk then .error "Ship selection failed"
  else if !env.addToCartOk then .error "Add to cart click failed"
  else
    match navigateToCheckout env.cartClickOk env.cartStrategies with
    | (_, .error e) => .error e
    | (_, .ok ()) =>
      if !env.contactOk then .error "Contact info stage failed"
      else (fillShippingInfo env.shipping).2

/-- The configuration fields of a run that `executeCheckout` branches on:
the product URL (checked before the browser is launched) and whether each
results-sink callback is configured (`if (this.onComplete)` /
`if (this.onError)`). -/
structure CheckoutConfig where
  productUrl : Option String
  hasOnComplete : Bool
  hasOnError : Bool
deriving DecidableEq

/-- One invocation of a results-sink callback, with the structured outcome
passed to it. -/
inductive CallbackCall where
  | completeCalled (success : Bool) (message : String)
  | errorCalled (success : Bool) (error : String)
deriving DecidableEq

/-- Whether a callback invocation is an `onComplete` invocation. -/
def isCompleteCall : CallbackCall → Bool
  | .completeCalled _ _ => true
  | .errorCalled _ _ => false

/-- Whether a callback invocation is an `onError` invocation. -/
def isErrorCall : CallbackCall → Bool
  | .completeCalled _ _ => false
  | .errorCalled _ _ => true

/-- The observable trace of one `executeCheckout` run: whether
`chromium.launch` succeeded (so a browser exists), whether the `finally` arm
invoked `browser.close`, the callback invocations in order, whether
`handlePayment` was reached, its effects when it ran, and the run's outcome
(the promise resolving or rejecting). -/
structure RunTrace where
  browserLaunched : Bool
  closeCalled : Bool
  callbacks : List CallbackCall
  paymentStarted : Bool
  paymentEffects : Option PaymentEffects
  outcome : Except String Unit

/-- The `catch` arm of `executeCheckout`, entered with the thrown error `e`
and the callbacks already invoked: `await page.screenshot(...)` first (a
rejection here propagates out of the `catch`, skipping `onError`); then
`await this.onError({success:false, error})` when configured — the
invocation is recorded even when the callback itself rejects, and a
rejection replaces the rethrown error; finally `throw error` rethrows `e`.
Returns the callback list and the pending completion handed to `finally`. -/
def catchArm (env : RunEnv) (cfg : CheckoutConfig) (prior : List CallbackCall)
    (e : String) : List CallbackCall × Except String Unit :=
  if !env.screenshotOk then
    (prior, .error "Screenshot capture failed")
  else if cfg.hasOnError then
    if env.onErrorOk then (prior ++ [.errorCalled false e], .error e)
    else (prior ++ [.errorCalled false e], .error "onError callback failed")
  else
    (prior, .error e)

/-- The `try`/`catch` of `executeCheckout`: run the stage pipeline and
`handlePayment` (whose return value is not inspected); on success `await`
`onComplete` (when configured) with `{success: true, message: "Checkout
completed"}` — if that callback rejects, the rejection is caught by the
`catch` arm like any stage error.  Returns whether `handlePayment` was
reached, its effects, the invoked callbacks and the pending completion
handed to `finally`. -/
def tryBody (cfg : CheckoutConfig) (env : RunEnv) :
    Bool × Option PaymentEffects × List CallbackCall × Except String Unit :=
  match prePaymentStages env with
  | .error e => (false, none, catchArm env cfg [] e)
  | .ok () =>
    let (eff, pres) := handlePayment env.payment
    match pres with
    | .error e => (true, some eff, catchArm env cfg [] e)
    | .ok _ =>
      if cfg.hasOnComplete then
        if env.onCompleteOk then
          (true, some eff, [.completeCalled true "Checkout completed"], .ok ())
        else
          (true, some eff,
            catchArm env cfg [.completeCalled true "Checkout completed"]
              "onComplete callback failed")
      else
        (true, some eff, [], .ok ())

/-- `executeCheckout()`: require a product URL (throwing before any browser is
launched when it is absent); run `createBrowser` outside the `try` — a
rejected `chromium.launch` leaves no browser, while a rejected
`browser.newPage` leaves the launched browser unreferenced and never closed;
then run `tryBody` inside `try`/`catch` and, in `finally`, invoke
`browser.close` — a rejected close replaces the run's completion. -/
def executeCheckout (cfg : CheckoutConfig) (env : RunEnv) : RunTrace :=
  match cfg.productUrl with
  | none =>
    ⟨false, false, [], false, none,
      .error "Product URL is required. Set PRODUCT_URL environment variable or pass productUrl option."⟩
  | some _ =>
    if !env.launchOk then
      ⟨false, false, [], false, none, .error "Browser launch failed"⟩
    else if !env.newPageOk then
      ⟨true, false, [], false, none, .error "New page creation failed"⟩
    else
      let t := tryBody cfg env
      ⟨true, true, t.2.2.1, t.1, t.2.1,
        if env.closeOk then t.2.2.2 else .error "Browser close failed"⟩

/-- The resolved option values of a `FWGSCheckout` instance (after the
`options || env || default` fallbacks of the constructor). -/
structure CheckoutOptions where
  productUrl : Option String
  firstName : String
  lastName : String
  email : String
  phone : String
  address : String
  city : String
  zipCode : String
  cardholderName : String
  cardNumber : String
  cvv : String
  expiryDate : String
  hasOnComplete : Bool
  hasOnError : Bool

/-- The known placeholder values checked by `validateConfiguration`. -/
def testValues : List String :=
  ["TEST_FIRST", "TEST_LAST", "test@example.com", "1234567890", "123 TEST ST",
   "TEST CITY", "12345", "TEST CARDHOLDER", "4111111111111111", "123", "12/25"]

/-- The configured values `validateConfiguration` compares against
`testValues`, in declared order. -/
def currentValues (opts : CheckoutOptions) : List String :=
  [opts.firstName, opts.lastName, opts.email, opts.phone,
   opts.address, opts.city, opts.zipCode,
   opts.cardholderName, opts.cardNumber, opts.cvv, opts.expiryDate]

/-- `currentValues.some(value => testValues.includes(value))`. -/
def usingTestData (opts : CheckoutOptions) : Bool :=
  (currentValues opts).any (fun v => testValues.contains v)

/-- The console lines printed when placeholder data is detected. -/
def placeholderWarning : List String :=
  ["WARNING: Using placeholder/test data for checkout!",
   "This will likely result in checkout failure with test data."]

/-- The console line printed when no placeholder data is detected. -/
def configuredOk : List String :=
  ["Using configured personal information for checkout"]

/-- `validateConfiguration()`: compare the configured values against the
known placeholder values and print a warning or a confirmation; it never
throws and returns nothing. -/
def validateConfiguration (opts : CheckoutOptions) : List String :=
  if usingTestData opts then placeholderWarning else configuredOk

/-- The run-relevant configuration derived from the resolved options. -/
def configOf (opts : CheckoutOptions) : CheckoutConfig :=
  ⟨opts.productUrl, opts.hasOnComplete, opts.hasOnError⟩

/-- The `FWGSCheckout` constructor: store the resolved options and call
`validateConfiguration`.  Modelled with an `Except` result to record that no
path of the constructor throws. -/
def constructFWGS (opts : CheckoutOptions) :
    Except String (CheckoutOptions × List String) :=
  .ok (opts, validateConfiguration opts)

/-- Running `executeCheckout` on a constructed instance. -/
def runConstructed (opts : CheckoutOptions) (env : RunEnv) :
    Except String RunTrace :=
  (constructFWGS opts).map (fun s => executeCheckout (configOf s.1) env)

/-- All elements matched by the poller's selector set, in scan order. -/
def matchedEls (page : String → List ErrEl) : List ErrEl :=
  (errorSelectors.map page).flatten

/-- The condition of the primary CVV loop, as a predicate on an
(ordinal index, observed attributes) pair: not skipped by the `catch` arm,
visible, enabled, not of hidden type, and not the index-0 field reserved for
the card number. -/
def cvvQualifies (p : Nat × InputInfo) : Bool :=
  !p.2.faulty && p.2.visible && p.2.enabled && p.2.type != "hidden" && decide (0 < p.1)

/-- The iframe input table of the specification's classifier example:
`[hidden, visible-type-text, visible-type-text, hidden]`. -/
def exampleIframeInputs : List InputInfo :=
  [⟨false, false, "hidden", false⟩, ⟨true, true, "text", false⟩,
   ⟨true, true, "text", false⟩, ⟨false, false, "hidden", false⟩]

/-- A page trace on which no error element ever appears. -/
def noErrorPages : Nat → String → List ErrEl :=
  fun _ _ => []

/-- A page trace on which a visible `.payment-error` element with text
`"Card declined"` appears exactly at check 5. -/
def declinedPages : Nat → String → List ErrEl :=
  fun c sel =>
    if c == 5 && sel == ".payment-error" then [⟨true, "Card declined"⟩] else []

/-- A page trace on which a visible `.card-error` element with text
`"Invalid card number"` appears from check 1 on. -/
def invalidAtOnePages : Nat → String → List ErrEl :=
  fun c sel =>
    if c == 1 && sel == ".card-error" then [⟨true, "Invalid card number"⟩] else []

/-- A shipping environment in which everything succeeds and the
address-validation dialog appears. -/
def benignShipping : ShippingEnv :=
  ⟨true, true, true, true, true, true⟩

/-- A shipping environment in which everything succeeds but the
address-validation dialog never appears within its timeout. -/
def skipShipping : ShippingEnv :=
  ⟨true, true, true, false, true, true⟩

/-- A payment environment in which everything succeeds and no error element
ever appears. -/
def benignPaymentEnv : PaymentEnv :=
  ⟨true, true, true, true, true, exampleIframeInputs, [], true, true, true, true,
    noErrorPages⟩

/-- A payment environment in which everything succeeds but the poller sees
`"Card declined"` at check 5. -/
def declinedPaymentEnv : PaymentEnv :=
  ⟨true, true, true, true, true, exampleIframeInputs, [], true, true, true, true,
    declinedPages⟩

/-- A payment environment in which the place-order button is visible but
never enabled. -/
def disabledButtonPaymentEnv : PaymentEnv :=
  ⟨true, true, true, true, true, exampleIframeInputs, [], true, true, false, true,
    noErrorPages⟩

/-- A payment environment in which the card-number field never becomes
visible within its 3-second visibility check. -/
def noCardFieldPaymentEnv : PaymentEnv :=
  ⟨true, true, true, false, true, exampleIframeInputs, [], true, true, true, true,
    noErrorPages⟩

/-- A full run environment where browser creation, every pre-payment stage,
the diagnostic screenshot, both callbacks and the browser close all succeed,
built over a given payment and shipping environment. -/
def runEnvWith (s : ShippingEnv) (p : PaymentEnv) : RunEnv :=
  ⟨true, true, true, true, true, true, true, true, [true], true, s, p,
   true, true, true, true⟩

/-- A run environment in which `chromium.launch` succeeds but
`browser.newPage` rejects. -/
def noPageRunEnv : RunEnv :=
  { runEnvWith benignShipping benignPaymentEnv with newPageOk := false }

/-- A run environment in which the first stage fails and the catch-arm
`page.screenshot` rejects. -/
def screenshotFailRunEnv : RunEnv :=
  { runEnvWith benignShipping benignPaymentEnv with
      gotoOk := false, screenshotOk := false }

/-- A run environment in which every stage succeeds but the awaited
`onComplete` callback rejects. -/
def throwingCompleteRunEnv : RunEnv :=
  { runEnvWith benignShipping benignPaymentEnv with onCompleteOk := false }

/-- A configuration with a product URL and both callbacks wired. -/
def happyConfig : CheckoutConfig :=
  ⟨some "https://www.finewineandgoodspirits.com/product/000012345", true, true⟩

/-- A configuration with both callbacks wired but no product URL. -/
def noUrlConfig : CheckoutConfig :=
  ⟨none, true, true⟩

/-- Options resolved entirely to the constructor's placeholder defaults. -/
def placeholderOptions : CheckoutOptions :=
  ⟨some "https://www.finewineandgoodspirits.com/product/000012345",
   "TEST_FIRST", "TEST_LAST", "test@example.com", "1234567890",
   "520 CHESTNUT ST", "PHILADELPHIA", "19106",
   "TEST CARDHOLDER", "4111111111111111", "123", "12/25", true, true⟩

/-- The inner element loop finds the first element passing `goodEl` and
reports its trimmed text. -/
theorem scanList_eq_find (l : List ErrEl) :
    scanList l = (l.find? goodEl).map (fun e => jsTrim e.text) := by
  induction l with
  | nil => rfl
  | cons e es ih =>
    cases h : goodEl e with
    | false => simp [scanList, h, List.find?_cons_of_neg, ih]
    | true => simp [scanList, h, List.find?_cons_of_pos]

/-- The nested selector/element loops scan the concatenation of the selector
matches in declared order. -/
theorem scanSelList_eq_find (page : String → List ErrEl) (sels : List String) :
    scanSelList page sels =
      (((sels.map page).flatten).find? goodEl).map (fun e => jsTrim e.text) := by
  induction sels with
  | nil => rfl
  | cons sel rest ih =>
    simp only [scanSelList, scanList_eq_find, List.map_cons, List.flatten_cons,
      List.find?_append]
    cases h : (page sel).find? goodEl with
    | none => simp [h, ih]
    | some e => simp [h]

/-- If the scan finds nothing during the remaining checks, the loop resolves
unconfirmed after exhausting them. -/
theorem checkLoop_unconfirmed (scan : Nat → Option String) :
    ∀ (fuel checkCount : Nat),
      (∀ c, checkCount < c → c ≤ checkCount + fuel → scan c = none) →
      checkLoop scan checkCount fuel = ⟨false, "", (checkCount + fuel) * 200⟩ := by
  intro fuel
  induction fuel with
  | zero => intro checkCount _; simp [checkLoop]
  | succ fuel ih =>
    intro checkCount hnone
    have h1 : scan (checkCount + 1) = none := hnone _ (by omega) (by omega)
    have h2 := ih (checkCount + 1) (fun c hc1 hc2 => hnone c (by omega) (by omega))
    have h3 : checkCount + 1 + fuel = checkCount + (fuel + 1) := by omega
    simp only [checkLoop, h1]
    rw [h2, h3]

/-- The loop's reported timing never exceeds the horizon. -/
theorem checkLoop_timing_le (scan : Nat → Option String) :
    ∀ (fuel checkCount : Nat),
      (checkLoop scan checkCount fuel).timing ≤ (checkCount + fuel) * 200 := by
  intro fuel
  induction fuel with
  | zero => intro checkCount; simp [checkLoop]
  | succ fuel ih =>
    intro checkCount
    simp only [checkLoop]
    cases h : scan (checkCount + 1) with
    | some m => simp
    | none =>
      have h2 := ih (checkCount + 1)
      show (checkLoop scan (checkCount + 1) fuel).timing ≤ (checkCount + (fuel + 1)) * 200
      omega

/-- If the scan is empty up to check `c₀` and matches at `c₀`, the loop stops
at check `c₀` with the matched message. -/
theorem checkLoop_first (scan : Nat → Option String) :
    ∀ (fuel checkCount c₀ : Nat) (m : String),
      checkCount < c₀ → c₀ ≤ checkCount + fuel →
      (∀ c, checkCount < c → c < c₀ → scan c = none) →
      scan c₀ = some m →
      checkLoop scan checkCount fuel = ⟨true, m, c₀ * 200⟩ := by
  intro fuel
  induction fuel with
  | zero => intro checkCount c₀ m hlt hle _ _; omega
  | succ fuel ih =>
    intro checkCount c₀ m hlt hle hnone hsome
    rcases Nat.eq_or_lt_of_le hlt with heq | hlt2
    · subst heq
      simp only [Nat.succ_eq_add_one] at hsome
      simp [checkLoop, hsome]
    · have h1 : scan (checkCount + 1) = none := hnone _ (by omega) hlt2
      simp only [checkLoop, h1]
      exact ih (checkCount + 1) c₀ m hlt2 (by omega) (fun c hc1 hc2 => hnone c (by omega) hc2) hsome

/-- C4: the order-result error poller always terminates: it performs at most
`maxChecks = 50` checks at a 200 ms interval (so the reported timing never
exceeds the 10-second horizon) and, when no error-matching text is found at
any check within the horizon, it resolves with `errorFound = false` — for
every page state. -/
theorem c4_poller_bounded (pages : Nat → String → List ErrEl) :
    (monitorPaymentErrors pages).timing ≤ maxChecks * 200 ∧
    ((∀ c, 1 ≤ c → c ≤ maxChecks → scanSelectors (pages c) = none) →
      monitorPaymentErrors pages = ⟨false, "", 10000⟩) := by
  constructor
  · have h := checkLoop_timing_le (fun c => scanSelectors (pages c)) maxChecks 0
    simpa [monitorPaymentErrors] using h
  · intro h
    have h2 := checkLoop_unconfirmed (fun c => scanSelectors (pages c)) maxChecks 0
      (fun c hc1 hc2 => h c (by omega) (by simpa [maxChecks] using hc2))
    simpa [monitorPaymentErrors, maxChecks] using h2

/-- C4 witness: the poller on a page trace without any error element resolves
unconfirmed at the 10-second horizon. -/
theorem c4_witness :
    (monitorPaymentErrors noErrorPages).timing ≤ maxChecks * 200 ∧
    monitorPaymentErrors noErrorPages = ⟨false, "", 10000⟩ :=
  ⟨(c4_poller_bounded noErrorPages).1,
   (c4_poller_bounded noErrorPages).2 (fun _ _ _ => rfl)⟩

/-- C5: one scan of the poller reports a message exactly when some element
matched by the fixed selector set is visible with non-empty trimmed text
whose lowercase form contains one of the keywords "invalid", "declined",
"error", "failed"; the reported message is the trimmed text of the first such
element in scan order; and the poll stops at the first check whose scan
matches, reporting that check's message and timing. -/
theorem c5_error_scan_spec :
    (∀ page : String → List ErrEl,
      scanSelectors page =
        ((matchedEls page).find? goodEl).map (fun e => jsTrim e.text)) ∧
    (∀ e : ErrEl,
      goodEl e = true ↔
        e.visible = true ∧ jsTrim e.text ≠ "" ∧
          (strIncludes (jsToLower e.text) "invalid" = true ∨
           strIncludes (jsToLower e.text) "declined" = true ∨
           strIncludes (jsToLower e.text) "error" = true ∨
           strIncludes (jsToLower e.text) "failed" = true)) ∧
    (∀ (pages : Nat → String → List ErrEl) (c₀ : Nat) (m : String),
      1 ≤ c₀ → c₀ ≤ maxChecks →
      (∀ c, 1 ≤ c → c < c₀ → scanSelectors (pages c) = none) →
      scanSelectors (pages c₀) = some m →
      monitorPaymentErrors pages = ⟨true, m, c₀ * 200⟩) := by
  refine ⟨fun page => scanSelList_eq_find page errorSelectors, fun e => ?_, ?_⟩
  · simp [goodEl, keywordMatch, Bool.and_eq_true, Bool.or_eq_true, bne_iff_ne,
      and_assoc, or_assoc]
  · intro pages c₀ m h1 h2 hnone hsome
    exact checkLoop_first (fun c => scanSelectors (pages c)) maxChecks 0 c₀ m
      (by omega) (by omega) (fun c hc1 hc2 => hnone c (by omega) hc2) hsome

/-- C5 witness: a visible `.card-error` element with text
"Invalid card number" present at check 1 stops the poll at check 1 with that
text. -/
theorem c5_witness :
    monitorPaymentErrors invalidAtOnePages = ⟨true, "Invalid card number", 200⟩ :=
  c5_error_scan_spec.2.2 invalidAtOnePages 1 "Invalid card number" (by decide) (by decide)
    (fun c hc1 hc2 => absurd hc2 (by omega)) (by decide)

/-- C1: on a run where every stage succeeds and the error poller detects a
visible error element with text "Card declined" at check 5, `handlePayment`
does detect the decline and returns `{success: false, error: "Card
declined"}` — but `executeCheckout` discards that return value, invokes
`onComplete` with `{success: true, message: "Checkout completed"}`, never
invokes `onError`, and the run resolves successfully, contradicting the
specified terminal `Failed` outcome. -/
theorem c1_declined_run_behavior :
    (handlePayment declinedPaymentEnv).2 = .ok ⟨false, some "Card declined"⟩ ∧
    (executeCheckout happyConfig (runEnvWith benignShipping declinedPaymentEnv)).callbacks
      = [.completeCalled true "Checkout completed"] ∧
    (executeCheckout happyConfig (runEnvWith benignShipping declinedPaymentEnv)).outcome
      = .ok () := by
  refine ⟨rfl, by decide, rfl⟩

/-- C2 counterexample: on the input list
`[hidden, visible-type-text, visible-type-text, hidden]` the CVV loop selects
the input at index 1 — the second input overall — not the third input overall
(index 2) stated by the claim, because the visible input at index 1 already
satisfies `visible && enabled && type !== 'hidden' && i > 0`. -/
theorem c2_counterexample :
    selectCvvIndex exampleIframeInputs = some 1 ∧
    selectCvvIndex exampleIframeInputs ≠ some 2 := by
  decide

/-- C2 (amended): CVV classification excludes the input at index 0 and every
input that is hidden, disabled, or whose inspection faults, and classifies as
CVV the first remaining input that is visible and enabled; in particular, for
the input list `[hidden, visible-type-text, visible-type-text, hidden]`, the
second input overall (index 1) is selected. -/
theorem c2_cvv_classification :
    (∀ inputs : List InputInfo,
      selectCvvIndex inputs = (inputs.enum.find? cvvQualifies).map Prod.fst) ∧
    selectCvvIndex exampleIframeInputs = some 1 := by
  constructor
  · intro inputs
    have key : ∀ (l : List InputInfo) (i : Nat),
        selectCvvGo l i = ((l.enumFrom i).find? cvvQualifies).map Prod.fst := by
      intro l
      induction l with
      | nil => intro i; rfl
      | cons inp rest ih =>
        intro i
        have hcond : (!inp.faulty && inp.visible && inp.enabled &&
            inp.type != "hidden" && decide (0 < i)) = cvvQualifies (i, inp) := rfl
        cases h : cvvQualifies (i, inp) with
        | false =>
          simp [selectCvvGo, hcond, h, List.enumFrom, List.find?_cons_of_neg, ih]
        | true =>
          simp [selectCvvGo, hcond, h, List.enumFrom, List.find?_cons_of_pos]
    simpa [selectCvvIndex, List.enum] using key inputs 0
  · decide

/-- C6: strategy trial for the cart-to-checkout action is deterministic and
exhaustive: with the first `k` strategies failing and the next succeeding,
exactly `k + 1` strategies are attempted and the stage succeeds; with all `n`
strategies failing, all `n` are attempted and the stage fails with
"Could not find checkout button". -/
theorem c6_strategy_order :
    (∀ (k : Nat) (rest : List Bool),
      tryStrats (List.replicate k false ++ true :: rest) = (k + 1, true) ∧
      navigateToCheckout true (List.replicate k false ++ true :: rest) = (k + 1, .ok ())) ∧
    (∀ n : Nat,
      tryStrats (List.replicate n false) = (n, false) ∧
      navigateToCheckout true (List.replicate n false) =
        (n, .error "Could not find checkout button")) := by
  have h1 : ∀ (k : Nat) (rest : List Bool),
      tryStrats (List.replicate k false ++ true :: rest) = (k + 1, true) := by
    intro k rest
    induction k with
    | zero => simp [tryStrats]
    | succ k ih => simp [List.replicate_succ, tryStrats, ih]
  have h2 : ∀ n : Nat, tryStrats (List.replicate n false) = (n, false) := by
    intro n
    induction n with
    | zero => rfl
    | succ n ih => simp [List.replicate_succ, tryStrats, ih]
  exact ⟨fun k rest => ⟨h1 k rest, by simp [navigateToCheckout, h1 k rest]⟩,
         fun n => ⟨h2 n, by simp [navigateToCheckout, h2 n]⟩⟩

/-- The catch arm leaves the prior callbacks untouched (screenshot rejection
or no configured `onError`) or appends exactly one `onError` invocation. -/
theorem catchArm_callbacks (env : RunEnv) (cfg : CheckoutConfig)
    (prior : List CallbackCall) (e : String) :
    (catchArm env cfg prior e).1 = prior ∨
    ∃ msg, (catchArm env cfg prior e).1 = prior ++ [.errorCalled false msg] := by
  unfold catchArm
  cases hs : env.screenshotOk with
  | false => exact Or.inl rfl
  | true =>
    cases ho : cfg.hasOnError with
    | false => simp
    | true =>
      cases hk : env.onErrorOk with
      | false => exact Or.inr ⟨e, by simp⟩
      | true => exact Or.inr ⟨e, by simp⟩

/-- The callbacks of one `try`/`catch` body: none, one `onComplete`, one
`onError`, or an `onComplete` followed by the `onError` triggered by its own
rejection. -/
theorem tryBody_callbacks (cfg : CheckoutConfig) (env : RunEnv) :
    (tryBody cfg env).2.2.1 = [] ∨
    (tryBody cfg env).2.2.1 = [.completeCalled true "Checkout completed"] ∨
    (∃ msg, (tryBody cfg env).2.2.1 = [.errorCalled false msg]) ∨
    (∃ msg, (tryBody cfg env).2.2.1
      = [.completeCalled true "Checkout completed", .errorCalled false msg]) := by
  rcases hp : prePaymentStages env with e | v
  · rcases catchArm_callbacks env cfg [] e with h | ⟨msg, h⟩
    · exact Or.inl (by simp [tryBody, hp, h])
    · exact Or.inr (Or.inr (Or.inl ⟨msg, by simp [tryBody, hp, h]⟩))
  · cases v
    rcases hh : handlePayment env.payment with ⟨eff, pres⟩
    rcases pres with e | r
    · rcases catchArm_callbacks env cfg [] e with h | ⟨msg, h⟩
      · exact Or.inl (by simp [tryBody, hp, hh, h])
      · exact Or.inr (Or.inr (Or.inl ⟨msg, by simp [tryBody, hp, hh, h]⟩))
    · cases hoc : cfg.hasOnComplete with
      | false => exact Or.inl (by simp [tryBody, hp, hh, hoc])
      | true =>
        cases hok : env.onCompleteOk with
        | true => exact Or.inr (Or.inl (by simp [tryBody, hp, hh, hoc, hok]))
        | false =>
          rcases catchArm_callbacks env cfg [.completeCalled true "Checkout completed"]
              "onComplete callback failed" with h | ⟨msg, h⟩
          · exact Or.inr (Or.inl (by simp [tryBody, hp, hh, hoc, hok, h]))
          · exact Or.inr (Or.inr (Or.inr ⟨msg, by simp [tryBody, hp, hh, hoc, hok, h]⟩))

/-- C3 counterexample: four concrete runs violating the claim as stated.
A run without a product URL emits no callback and never reaches
`browser.close`; a run whose `browser.newPage` rejects leaks the launched
browser (never closed) and emits no callback; a fatal run whose catch-arm
`page.screenshot` rejects emits no callback at all; a run whose awaited
`onComplete` rejects emits both callbacks in the same run. -/
theorem c3_counterexample :
    (executeCheckout noUrlConfig (runEnvWith benignShipping benignPaymentEnv)).callbacks = [] ∧
    (executeCheckout noUrlConfig (runEnvWith benignShipping benignPaymentEnv)).closeCalled = false ∧
    (executeCheckout happyConfig noPageRunEnv).browserLaunched = true ∧
    (executeCheckout happyConfig noPageRunEnv).closeCalled = false ∧
    (executeCheckout happyConfig noPageRunEnv).callbacks = [] ∧
    (executeCheckout happyConfig screenshotFailRunEnv).callbacks = [] ∧
    (executeCheckout happyConfig screenshotFailRunEnv).outcome
      = .error "Screenshot capture failed" ∧
    (executeCheckout happyConfig throwingCompleteRunEnv).callbacks
      = [.completeCalled true "Checkout completed",
         .errorCalled false "onComplete callback failed"] :=
  ⟨rfl, rfl, rfl, rfl, rfl, rfl, rfl, rfl⟩

/-- C3 (amended): each terminal callback is invoked at most once per run;
whenever the run has a product URL and browser creation succeeds, the
`finally` arm invokes `browser.close`; and on every run that additionally has
both callbacks configured, a succeeding diagnostic screenshot, callbacks that
return without rejecting and a succeeding close, exactly one terminal
callback is emitted — `onComplete` on success, `onError` on a fatal failure,
never both.  Runs rejected before the page exists emit no callback (a failed
`newPage` leaking the launched browser), a rejected screenshot suppresses
`onError`, and a rejecting `onComplete` triggers `onError` as well. -/
theorem c3_callback_discipline :
    (∀ (cfg : CheckoutConfig) (env : RunEnv),
      (executeCheckout cfg env).callbacks.countP isCompleteCall ≤ 1 ∧
      (executeCheckout cfg env).callbacks.countP isErrorCall ≤ 1) ∧
    (∀ (cfg : CheckoutConfig) (env : RunEnv),
      cfg.productUrl ≠ none → env.launchOk = true → env.newPageOk = true →
      (executeCheckout cfg env).browserLaunched = true ∧
      (executeCheckout cfg env).closeCalled = true) ∧
    (∀ (cfg : CheckoutConfig) (env : RunEnv),
      cfg.productUrl ≠ none → cfg.hasOnComplete = true → cfg.hasOnError = true →
      env.launchOk = true → env.newPageOk = true → env.screenshotOk = true →
      env.onCompleteOk = true → env.onErrorOk = true → env.closeOk = true →
      (executeCheckout cfg env).callbacks.length = 1 ∧
      (∀ msg, (executeCheckout cfg env).outcome = .error msg →
        (executeCheckout cfg env).callbacks = [.errorCalled false msg]) ∧
      ((executeCheckout cfg env).outcome = .ok () →
        (executeCheckout cfg env).callbacks
          = [.completeCalled true "Checkout completed"])) := by
  refine ⟨?_, ?_, ?_⟩
  · intro cfg env
    have key : ∀ l : List CallbackCall,
        (l = [] ∨ l = [.completeCalled true "Checkout completed"] ∨
         (∃ msg, l = [.errorCalled false msg]) ∨
         (∃ msg, l = [.completeCalled true "Checkout completed",
                      .errorCalled false msg])) →
        l.countP isCompleteCall ≤ 1 ∧ l.countP isErrorCall ≤ 1 := by
      rintro l (rfl | rfl | ⟨msg, rfl⟩ | ⟨msg, rfl⟩) <;>
        simp [List.countP_cons, isCompleteCall, isErrorCall]
    rcases hu : cfg.productUrl with _ | u
    · simp [executeCheckout, hu]
    · cases hl : env.launchOk with
      | false => simp [executeCheckout, hu, hl]
      | true =>
        cases hnp : env.newPageOk with
        | false => simp [executeCheckout, hu, hl, hnp]
        | true =>
          have hcb : (executeCheckout cfg env).callbacks = (tryBody cfg env).2.2.1 := by
            simp [executeCheckout, hu, hl, hnp]
          rw [hcb]
          exact key _ (tryBody_callbacks cfg env)
  · intro cfg env hurl hl hnp
    rcases hu : cfg.productUrl with _ | u
    · exact absurd hu hurl
    · exact ⟨by simp [executeCheckout, hu, hl, hnp], by simp [executeCheckout, hu, hl, hnp]⟩
  · intro cfg env hurl hc he hl hnp hs hco hek hcl
    rcases hu : cfg.productUrl with _ | u
    · exact absurd hu hurl
    · rcases hp : prePaymentStages env with e | v
      · have hcatch : catchArm env cfg [] e = ([.errorCalled false e], .error e) := by
          simp [catchArm, hs, he, hek]
        have ht : tryBody cfg env = (false, none, [.errorCalled false e], .error e) := by
          simp [tryBody, hp, hcatch]
        simp [executeCheckout, hu, hl, hnp, ht, hcl]
      · cases v
        rcases hh : handlePayment env.payment with ⟨eff, pres⟩
        rcases pres with e | r
        · have hcatch : catchArm env cfg [] e = ([.errorCalled false e], .error e) := by
            simp [catchArm, hs, he, hek]
          have ht : tryBody cfg env
              = (true, some eff, [.errorCalled false e], .error e) := by
            simp [tryBody, hp, hh, hcatch]
          simp [executeCheckout, hu, hl, hnp, ht, hcl]
        · have ht : tryBody cfg env
              = (true, some eff, [.completeCalled true "Checkout completed"], .ok ()) := by
            simp [tryBody, hp, hh, hc, hco]
          simp [executeCheckout, hu, hl, hnp, ht, hcl]

/-- C3 witness: on a fully successful run with a product URL, each callback
is invoked at most once, the browser is closed, and exactly the single
`onComplete` callback is emitted. -/
theorem c3_witness :
    (executeCheckout happyConfig (runEnvWith benignShipping benignPaymentEnv)).callbacks.countP
      isErrorCall ≤ 1 ∧
    (executeCheckout happyConfig (runEnvWith benignShipping benignPaymentEnv)).closeCalled
      = true ∧
    (executeCheckout happyConfig (runEnvWith benignShipping benignPaymentEnv)).callbacks
      = [.completeCalled true "Checkout completed"] :=
  ⟨(c3_callback_discipline.1 happyConfig (runEnvWith benignShipping benignPaymentEnv)).2,
   (c3_callback_discipline.2.1 happyConfig (runEnvWith benignShipping benignPaymentEnv)
      (by decide) rfl rfl).2,
   (c3_callback_discipline.2.2 happyConfig (runEnvWith benignShipping benignPaymentEnv)
      (by decide) rfl rfl rfl rfl rfl rfl rfl rfl).2.2 rfl⟩

/-- C7: when the address-validation dialog never appears within its timeout
(and the rest of the shipping stage succeeds), the stage does not fail — the
`catch` arm turns the absence into a successful skip — and the run proceeds
to the Payment stage. -/
theorem c7_optional_address_validation (cfg : CheckoutConfig) (env : RunEnv)
    (hurl : cfg.productUrl ≠ none)
    (hlaunch : env.launchOk = true) (hpage : env.newPageOk = true)
    (hg : env.gotoOk = true) (ha : env.ageOk = true) (hav : env.availOk = true)
    (hs : env.shipSelectOk = true) (hatc : env.addToCartOk = true)
    (hcc : env.cartClickOk = true) (hstrat : (tryStrats env.cartStrategies).2 = true)
    (hci : env.contactOk = true)
    (hform : env.shipping.formVisible = true) (hfill : env.shipping.fillsOk = true)
    (hcont : env.shipping.continueVisible = true)
    (hdialog : env.shipping.dialogAppears = false)
    (hpp : env.shipping.paymentPageAppears = true) :
    fillShippingInfo env.shipping = (false, .ok ()) ∧
    (executeCheckout cfg env).paymentStarted = true := by
  have hship : fillShippingInfo env.shipping = (false, .ok ()) := by
    simp [fillShippingInfo, hform, hfill, hcont, hpp, hdialog, addressValidationTry,
      catchAll]
  have hnav : navigateToCheckout env.cartClickOk env.cartStrategies =
      ((tryStrats env.cartStrategies).1, .ok ()) := by
    rcases ht : tryStrats env.cartStrategies with ⟨n, clicked⟩
    rw [ht] at hstrat
    simp only at hstrat
    subst hstrat
    simp [navigateToCheckout, hcc, ht]
  have hpre : prePaymentStages env = .ok () := by
    simp [prePaymentStages, hg, ha, hav, hs, hatc, hci, hship, hnav]
  refine ⟨hship, ?_⟩
  have ht1 : (tryBody cfg env).1 = true := by
    rcases hh : handlePayment env.payment with ⟨eff, pres⟩
    rcases pres with e | r
    · simp [tryBody, hpre, hh]
    · cases hoc : cfg.hasOnComplete with
      | false => simp [tryBody, hpre, hh, hoc]
      | true => cases hok : env.onCompleteOk <;> simp [tryBody, hpre, hh, hoc, hok]
  rcases hu : cfg.productUrl with _ | u
  · exact absurd hu hurl
  · simp [executeCheckout, hu, hlaunch, hpage, ht1]

/-- C7 witness: the environment in which the validation dialog never appears
but everything else succeeds skips validation and reaches the Payment
stage. -/
theorem c7_witness :
    fillShippingInfo skipShipping = (false, .ok ()) ∧
    (executeCheckout happyConfig (runEnvWith skipShipping benignPaymentEnv)).paymentStarted
      = true :=
  c7_optional_address_validation happyConfig (runEnvWith skipShipping benignPaymentEnv)
    (by decide) rfl rfl rfl rfl rfl rfl rfl rfl rfl rfl rfl rfl rfl rfl rfl

/-- C8: when the place-order button is visible but not enabled,
`handlePayment` neither clicks it nor starts the error poller, yet returns
`{success: true}`, and the run completes with the `onComplete` success
callback even though no order submission was attempted. -/
theorem c8_disabled_button_success (cfg : CheckoutConfig) (env : RunEnv)
    (hurl : cfg.productUrl ≠ none) (hc : cfg.hasOnComplete = true)
    (hlaunch : env.launchOk = true) (hpage : env.newPageOk = true)
    (honc : env.onCompleteOk = true) (hclose : env.closeOk = true)
    (hpre : prePaymentStages env = .ok ())
    (h1 : env.payment.cardholderFillOk = true) (h2 : env.payment.iframeAttached = true)
    (h3 : env.payment.frameAccessible = true) (h4 : env.payment.cardFieldVisible = true)
    (h5 : env.payment.cardFillOk = true) (h6 : env.payment.expiryOk = true)
    (h7 : env.payment.buttonVisible = true) (h8 : env.payment.buttonEnabled = false) :
    (handlePayment env.payment).1.orderClicked = false ∧
    (handlePayment env.payment).1.pollerStarted = false ∧
    (handlePayment env.payment).2 = .ok ⟨true, none⟩ ∧
    (executeCheckout cfg env).callbacks = [.completeCalled true "Checkout completed"] ∧
    (executeCheckout cfg env).outcome = .ok () := by
  have hclick : (handlePayment env.payment).1.orderClicked = false := by
    simp [handlePayment, h1, h2, h3, h4, h5, h6, h7, h8]
  have hpoller : (handlePayment env.payment).1.pollerStarted = false := by
    simp [handlePayment, h1, h2, h3, h4, h5, h6, h7, h8]
  have hres : (handlePayment env.payment).2 = .ok ⟨true, none⟩ := by
    simp [handlePayment, h1, h2, h3, h4, h5, h6, h7, h8]
  have hrun : (executeCheckout cfg env).callbacks
        = [.completeCalled true "Checkout completed"] ∧
      (executeCheckout cfg env).outcome = .ok () := by
    rcases hu : cfg.productUrl with _ | u
    · exact absurd hu hurl
    · have hres2 := hres
      rcases hh : handlePayment env.payment with ⟨eff, pres⟩
      rw [hh] at hres2
      simp only at hres2
      subst hres2
      have ht : tryBody cfg env
          = (true, some eff, [.completeCalled true "Checkout completed"], .ok ()) := by
        simp [tryBody, hpre, hh, hc, honc]
      simp [executeCheckout, hu, hlaunch, hpage, ht, hclose]
  exact ⟨hclick, hpoller, hres, hrun.1, hrun.2⟩

/-- C8 witness: the disabled-button environment yields no click, no poller,
a `{success: true}` return, and a completed run with the success callback. -/
theorem c8_witness :
    (handlePayment disabledButtonPaymentEnv).1.orderClicked = false ∧
    (handlePayment disabledButtonPaymentEnv).1.pollerStarted = false ∧
    (handlePayment disabledButtonPaymentEnv).2 = .ok ⟨true, none⟩ ∧
    (executeCheckout happyConfig (runEnvWith benignShipping disabledButtonPaymentEnv)).callbacks
      = [.completeCalled true "Checkout completed"] ∧
    (executeCheckout happyConfig (runEnvWith benignShipping disabledButtonPaymentEnv)).outcome
      = .ok () :=
  c8_disabled_button_success happyConfig (runEnvWith benignShipping disabledButtonPaymentEnv)
    (by decide) rfl rfl rfl rfl rfl rfl rfl rfl rfl rfl rfl rfl rfl rfl

/-- C9: when the card-number field never becomes visible within its
visibility check, the card number is silently never entered — no error is
raised at that point — and the Payment stage proceeds to CVV handling, whose
primary classification runs unchanged over the iframe inputs. -/
theorem c9_card_field_skipped (penv : PaymentEnv)
    (h1 : penv.cardholderFillOk = true) (h2 : penv.iframeAttached = true)
    (h3 : penv.frameAccessible = true) (h4 : penv.cardFieldVisible = false)
    (h6 : penv.expiryOk = true) (h7 : penv.buttonVisible = true)
    (h8 : penv.orderClickOk = true) :
    (handlePayment penv).1.cardEntered = false ∧
    (handlePayment penv).1.cvvHandlingReached = true ∧
    (handlePayment penv).1.cvvPrimary = selectCvvIndex penv.inputs ∧
    ∃ r, (handlePayment penv).2 = .ok r := by
  cases hb : penv.buttonEnabled with
  | false =>
    refine ⟨?_, ?_, ?_, ⟨⟨true, none⟩, ?_⟩⟩ <;>
      simp [handlePayment, h1, h2, h3, h4, h6, h7, h8, hb]
  | true =>
    cases hr : (monitorPaymentErrors penv.pages).errorFound with
    | false =>
      refine ⟨?_, ?_, ?_, ⟨⟨true, none⟩, ?_⟩⟩ <;>
        simp [handlePayment, h1, h2, h3, h4, h6, h7, h8, hb, hr]
    | true =>
      refine ⟨?_, ?_, ?_,
          ⟨⟨false, some (monitorPaymentErrors penv.pages).errorMessage⟩, ?_⟩⟩ <;>
        simp [handlePayment, h1, h2, h3, h4, h6, h7, h8, hb, hr]

/-- C9 witness: the invisible-card-field environment leaves the card number
unfilled while CVV handling still runs its classification. -/
theorem c9_witness :
    (handlePayment noCardFieldPaymentEnv).1.cardEntered = false ∧
    (handlePayment noCardFieldPaymentEnv).1.cvvHandlingReached = true ∧
    (handlePayment noCardFieldPaymentEnv).1.cvvPrimary
      = selectCvvIndex noCardFieldPaymentEnv.inputs :=
  ⟨(c9_card_field_skipped noCardFieldPaymentEnv rfl rfl rfl rfl rfl rfl rfl).1,
   (c9_card_field_skipped noCardFieldPaymentEnv rfl rfl rfl rfl rfl rfl rfl).2.1,
   (c9_card_field_skipped noCardFieldPaymentEnv rfl rfl rfl rfl rfl rfl rfl).2.2.1⟩

/-- C10: constructing a `FWGSCheckout` never fails: the constructor always
returns, `validateConfiguration` flags placeholder data exactly when some
configured value equals one of the known test values (and then only logs a
warning), and the subsequent checkout run is a function of the run-relevant
configuration alone, identical whether or not placeholder data is in use. -/
theorem c10_placeholder_tolerant :
    (∀ opts, constructFWGS opts = .ok (opts, validateConfiguration opts)) ∧
    (∀ opts, usingTestData opts = true ↔ ∃ v ∈ currentValues opts, v ∈ testValues) ∧
    (∀ opts, validateConfiguration opts = placeholderWarning ↔ usingTestData opts = true) ∧
    (∀ opts env, runConstructed opts env = .ok (executeCheckout (configOf opts) env)) := by
  refine ⟨fun _ => rfl, fun opts => ?_, fun opts => ?_, fun _ _ => rfl⟩
  · simp [usingTestData, List.any_eq_true, List.contains, List.elem_iff]
  · by_cases h : usingTestData opts = true
    · simp [validateConfiguration, h]
    · simp [validateConfiguration, h, placeholderWarning, configuredOk]

end FWGS
